import Mathlib

/-!
Verification development for the Dumpster-Permit repository.

The repository displays geographically clustered permit records on a map and
enriches each cluster with human-readable place names obtained by reverse
geocoding.  This file gives a shallow embedding, in Lean, of the enrichment
pipeline: the coordinate quantization and geocode caches, the client-side
RateLimiter, the representative-point selection, the per-cluster facet
aggregation and area naming, the streaming state updates, the retrying
geocode route, and the per-IP rate limit of the geocode endpoint.

Numeric coordinates are modelled as rationals (the JavaScript sources only
ever quantize them through toFixed(4), whose rounding is modelled exactly),
times as natural-number milliseconds, and asynchronous effects as explicit
oracles (network responses, jitters) passed to executable functions.
-/

namespace DumpsterPermit

/-- A geographic point, from the Point shape used throughout the sources
(interfaces.ts location_coords entries). -/
structure Point where
  lat : ℚ
  lng : ℚ
  deriving DecidableEq

/-- Result of one reverse-geocode lookup (ReverseGeocodeData in
maps/DataFetcher.tsx; the object built by the geocode route in part_005).
Each facet is optional. -/
structure GeocodeData where
  neighborhood : Option String
  city : Option String
  county : Option String
  state : Option String
  postal_code : Option String
  deriving DecidableEq

/-- A raw spatial cluster (interface Cluster in interfaces.ts). -/
structure Cluster where
  job_type : String
  cluster_id : Int
  total_points : Nat
  center_lat : ℚ
  center_lng : ℚ
  keywords : List String
  location_ids : Option (List Int)
  location_coords : Option (List Point)
  deriving DecidableEq

/-- A cluster enriched with geocoded place names (interface
ClusterWithLocation in interfaces.ts).  Singular fields mirror the optional
TS fields; absent JS properties are `none`. -/
structure ClusterWithLocation extends Cluster where
  area_name : Option String
  neighborhood : Option String
  neighborhoods : List String
  city : Option String
  cities : List String
  county : Option String
  counties : List String
  state : Option String
  postal_code : Option String
  postal_codes : List String
  deriving DecidableEq

/-- A geocode result tagged with the owning cluster (interface GeocodeResult
in maps/DataFetcher.tsx and the object built in part_002 line 236). -/
structure GeocodeResult where
  clusterId : Int
  jobType : String
  data : GeocodeData
  deriving DecidableEq

/-- JavaScript Number.prototype.toFixed(4) as used for cache keys.
ECMA-262 extracts the sign first (a strictly negative number is rendered
with a leading minus even when the rounded magnitude is zero) and then
rounds the magnitude scaled by 10^4 to the nearest integer, ties upward.
The rendered string is determined by, and determines, this
(sign, rounded magnitude) pair: "-0.0001" is (true, 1), "-0.0000" is
(true, 0) and "0.0000" is (false, 0), all distinct strings.  The magnitude
is the floor of |q| * 10^4 + 1/2, written as one natural division over
numerator and denominator so that it evaluates by kernel reduction.
(Coordinates are modelled as exact rationals; binary floating-point
representation error is outside the model.) -/
def toFixed4 (q : ℚ) : Bool × ℕ :=
  (decide (q.num < 0), (20000 * q.num.natAbs + q.den) / (2 * q.den))

/-- The cache key of a point.  Both the client cache (part_002 line 142) and
the server cache (part_005 line 59) key on the string
lat.toFixed(4) ++ "," ++ lng.toFixed(4); that string is determined by, and
determines, this pair of sign-and-magnitude renderings, which we use as the
key. -/
def cacheKey (p : Point) : (Bool × ℕ) × (Bool × ℕ) :=
  (toFixed4 p.lat, toFixed4 p.lng)

/-- Area naming from facet lists, translated from maps/DataFetcher.tsx
lines 147 to 164 (identical code appears in MapWithClusters.tsx lines
225 to 242): first two neighborhoods joined by ", ", a " +k more" suffix
when the count minus two is positive, a parenthesized first city when any
city is known; otherwise all cities joined; otherwise "Unknown Area". -/
def computeAreaName (neighborhoodList cityList : List String) : String :=
  if neighborhoodList.length > 0 then
    let displayNeighborhoods := String.intercalate ", " (neighborhoodList.take 2)
    let moreCount : Int := (neighborhoodList.length : Int) - 2
    let base :=
      if moreCount > 0 then
        displayNeighborhoods ++ " +" ++ toString moreCount ++ " more"
      else displayNeighborhoods
    if cityList.length > 0 then base ++ " (" ++ cityList.headD "" ++ ")" else base
  else if cityList.length > 0 then String.intercalate ", " cityList
  else "Unknown Area"

/-- Modelled from the spec: the area naming policy as worded in section 4.4
step 5 of the design document, for comparison with `computeAreaName`. -/
def areaNameSpecPolicy (neighborhoods cities : List String) : String :=
  if neighborhoods ≠ [] then
    let base := String.intercalate ", " (neighborhoods.take 2)
    let base :=
      if neighborhoods.length > 2 then
        base ++ " +" ++ toString (neighborhoods.length - 2) ++ " more"
      else base
    if cities ≠ [] then base ++ " (" ++ cities.headD "" ++ ")" else base
  else if cities ≠ [] then String.intercalate ", " cities
  else "Unknown Area"

/-- The minimum interval between dispatches of the client RateLimiter
(part_002 line 95): 1100 milliseconds. -/
def minInterval : Nat := 1100

/-- The worker loop of the client RateLimiter (part_002, RateLimiter.process,
lines 111 to 134).  Input: the current clock, the recorded time of the last
dispatch, and the queued tasks in submission order, each given by its
execution duration.  Output: the (startTime, duration) pair of each dispatch,
in dispatch order.  Each iteration sleeps until minInterval has elapsed since
the last dispatch, shifts the next task off the front of the queue, records
the dispatch time, and awaits the task to completion before looping. -/
def schedule : Nat → Nat → List Nat → List (Nat × Nat)
  | _, _, [] => []
  | now, lastCallTime, d :: rest =>
    let start := if now < lastCallTime + minInterval then lastCallTime + minInterval else now
    (start, d) :: schedule (start + d) start rest

/-- The client geocode cache (part_002 line 88): a Map from quantized-point
keys to geocode results.  It stores no timestamps. -/
abbrev GeocodeCache : Type := List (((Bool × ℕ) × (Bool × ℕ)) × GeocodeData)

/-- JavaScript Map.prototype.set: replace the binding in place if the key is
present, append otherwise. -/
def cachePut (m : GeocodeCache) (k : (Bool × ℕ) × (Bool × ℕ)) (v : GeocodeData) : GeocodeCache :=
  match m with
  | [] => [(k, v)]
  | (k0, v0) :: t => if k0 = k then (k, v) :: t else (k0, v0) :: cachePut t k v

/-- JavaScript Map.prototype.get on the client cache. -/
def cacheGet (m : GeocodeCache) (k : (Bool × ℕ) × (Bool × ℕ)) : Option GeocodeData :=
  (m.find? (fun e => e.1 = k)).map (fun e => e.2)

/-- Outcome of one client-side cached geocode resolution. -/
structure ClientResolveOut where
  result : Option GeocodeData
  taskSubmitted : Bool
  networkCalled : Bool
  cache : GeocodeCache

/-- reverseGeocodeWithCache (part_002 lines 140 to 161): look the quantized
key up in the client cache and return the hit directly; otherwise submit a
task to the RateLimiter that fetches the geocode endpoint, cache a
successful result, and return null on failure.  The network outcome is an
explicit oracle: `net = some r` models a successful response body, `none`
models a failed fetch (the thrown error is caught and null returned). -/
def reverseGeocodeWithCache (cache : GeocodeCache) (p : Point)
    (net : Option GeocodeData) : ClientResolveOut :=
  match cacheGet cache (cacheKey p) with
  | some v => ⟨some v, false, false, cache⟩
  | none =>
    match net with
    | some r => ⟨some r, true, true, cachePut cache (cacheKey p) r⟩
    | none => ⟨none, true, true, cache⟩

/-- The key of the centroid of a cluster; part_002 lines 228 to 232 geocode
exactly this point for every cluster. -/
def centroidKey (c : Cluster) : (Bool × ℕ) × (Bool × ℕ) :=
  cacheKey ⟨c.center_lat, c.center_lng⟩

/-- The network lookups enqueued by the synchronous fan-out of part_002
fetchData step 2 (lines 228 to 241): one reverseGeocodeWithCache call per
raw cluster, on its centroid.  Each call checks the client cache
synchronously (before any enqueued task has run, hence against the cache as
it stood when the fan-out began) and enqueues a network task exactly when
the key is absent. -/
def enqueuedLookups (cacheKeys : List ((Bool × ℕ) × (Bool × ℕ))) (cs : List Cluster) :
    List ((Bool × ℕ) × (Bool × ℕ)) :=
  cs.filterMap (fun c =>
    if centroidKey c ∈ cacheKeys then none else some (centroidKey c))

/-- The placeholder sentinel published before geocoding (part_002 line 216). -/
def pendingSentinel : String := "Loading location..."

/-- A placeholder enriched cluster (part_002 lines 213 to 222): the raw
cluster spread with the pending area name and empty facet lists. -/
def basicCluster (c : Cluster) : ClusterWithLocation :=
  { toCluster := c
    area_name := some pendingSentinel
    neighborhood := none
    neighborhoods := []
    city := none
    cities := []
    county := none
    counties := []
    state := none
    postal_code := none
    postal_codes := [] }

/-- The list of placeholder clusters published synchronously by part_002
fetchData step 1 (setClusters(basicClusters), line 223). -/
def basicClusters (cs : List Cluster) : List ClusterWithLocation :=
  cs.map basicCluster

/-- An optional facet as the singleton-or-empty list built by the streaming
handler (part_002 lines 257 to 260). -/
def facetList (o : Option String) : List String :=
  match o with
  | some s => [s]
  | none => []

/-- The enhanced cluster built by the streaming geocode completion handler
(part_002 lines 256 to 285) from the owning raw cluster and one geocode
result: singleton facet lists and the inline area name of lines 262 to 271. -/
def enhanceCluster (c : Cluster) (data : GeocodeData) : ClusterWithLocation :=
  let neighborhoods := facetList data.neighborhood
  let cities := facetList data.city
  let counties := facetList data.county
  let postal_codes := facetList data.postal_code
  let area_name :=
    if neighborhoods.length > 0 then
      if cities.length > 0 then
        neighborhoods.headD "" ++ " (" ++ cities.headD "" ++ ")"
      else neighborhoods.headD ""
    else if cities.length > 0 then cities.headD ""
    else "Unknown Area"
  { toCluster := c
    area_name := some area_name
    neighborhood := neighborhoods.head?
    neighborhoods := neighborhoods
    city := cities.head?
    cities := cities
    county := counties.head?
    counties := counties
    state := data.state
    postal_code := postal_codes.head?
    postal_codes := postal_codes }

/-- The streaming state update applied by a geocode completion handler of
part_002 fetchData (lines 248 to 300).  `clustersMap` is the raw cluster
list of the fetch that created the handler; `prev` is the cluster state
currently published when the handler runs.  The handler looks its cluster up
in its own fetch's map, builds the enhanced cluster, and overwrites the
entry of `prev` whose (job_type, cluster_id) matches the result, leaving
`prev` unchanged when findIndex returns -1.  No generation or abort check
guards this update. -/
def applyGeocodeUpdate (clustersMap : List Cluster) (result : GeocodeResult)
    (prev : List ClusterWithLocation) : List ClusterWithLocation :=
  match clustersMap.find? (fun c =>
      c.job_type == result.jobType && c.cluster_id == result.clusterId) with
  | none => prev
  | some cluster =>
    let enhancedCluster := enhanceCluster cluster result.data
    match prev.findIdx? (fun c =>
        c.job_type == result.jobType && c.cluster_id == result.clusterId) with
    | none => prev
    | some index => prev.set index enhancedCluster

/-- The successive published cluster states of one part_002 cluster fetch:
the synchronously published placeholders, then the state after each
arriving geocode result (step 3, streaming updates).  Failed geocodes
(null results) are filtered out by the handler before this point. -/
def fetchClusterTrace (raw : List Cluster) (results : List GeocodeResult) :
    List (List ClusterWithLocation) :=
  List.scanl (fun st r => applyGeocodeUpdate raw r st) (basicClusters raw) results

/-- Representative-point selection of maps/DataFetcher.tsx lines 74 to 85:
when location_coords is present and non-empty, slice(0, min(10, length));
otherwise the single centroid point. -/
def pointsToGeocode (c : Cluster) : List Point :=
  match c.location_coords with
  | some coords =>
    if coords.length > 0 then coords.take (min 10 coords.length)
    else [⟨c.center_lat, c.center_lng⟩]
  | none => [⟨c.center_lat, c.center_lng⟩]

/-- Representative-point selection of the optimized fetcher in part_002
(fetchData step 2, lines 226 to 232): only the centroid of each cluster is
ever geocoded, regardless of location_coords. -/
def centroidOnlyPoints (c : Cluster) : List Point :=
  [⟨c.center_lat, c.center_lng⟩]

/-- The accumulating facet sets of one cluster in the batch pipeline of
maps/DataFetcher.tsx (the five JS Sets of lines 123 to 127). -/
structure FacetSets where
  neighborhoods : List String
  cities : List String
  states : List String
  counties : List String
  postal_codes : List String
  deriving DecidableEq

/-- The empty facet sets. -/
def emptyFacets : FacetSets :=
  ⟨[], [], [], [], []⟩

/-- JavaScript Set.prototype.add: keep first-seen insertion order, ignore
duplicates. -/
def setAdd (l : List String) (s : String) : List String :=
  if s ∈ l then l else l ++ [s]

/-- Set.add on an optional facet: absent fields are skipped (the truthiness
guards of maps/DataFetcher.tsx lines 131 to 139). -/
def setAddOpt (l : List String) (o : Option String) : List String :=
  match o with
  | some s => setAdd l s
  | none => l

/-- Folding one geocode result into the facet sets (the forEach body of
maps/DataFetcher.tsx lines 130 to 140). -/
def addFacets (acc : FacetSets) (d : GeocodeData) : FacetSets :=
  { neighborhoods := setAddOpt acc.neighborhoods d.neighborhood
    cities := setAddOpt acc.cities d.city
    states := setAddOpt acc.states d.state
    counties := setAddOpt acc.counties d.county
    postal_codes := setAddOpt acc.postal_codes d.postal_code }

/-- The settled results relevant to one cluster (the filter of
maps/DataFetcher.tsx lines 117 to 121). -/
def clusterResultsFor (c : Cluster) (rs : List GeocodeResult) : List GeocodeResult :=
  rs.filter (fun r => r.clusterId == c.cluster_id && r.jobType == c.job_type)

/-- The enriched cluster built by the batch pipeline of maps/DataFetcher.tsx
(lines 115 to 183): aggregate every matching settled result into the facet
sets, compute the area name, and assemble the enhanced cluster object. -/
def enrichOne (rs : List GeocodeResult) (c : Cluster) : ClusterWithLocation :=
  let f := (clusterResultsFor c rs).foldl (fun acc r => addFacets acc r.data) emptyFacets
  { toCluster := c
    area_name := some (computeAreaName f.neighborhoods f.cities)
    neighborhood :=
      if f.neighborhoods.length > 0 then
        some (String.intercalate ", " f.neighborhoods)
      else none
    neighborhoods := f.neighborhoods
    city := f.cities.head?
    cities := f.cities
    county := f.counties.head?
    counties := f.counties
    state := f.states.head?
    postal_code := f.postal_codes.head?
    postal_codes := f.postal_codes }

/-- The whole batch reconstruction of maps/DataFetcher.tsx step 3. -/
def enrichBatch (raw : List Cluster) (rs : List GeocodeResult) :
    List ClusterWithLocation :=
  raw.map (enrichOne rs)

/-- The published cluster states of one maps/DataFetcher.tsx cluster fetch:
a single setClusters call (line 185), issued only after Promise.all over
every geocoding promise has settled.  No intermediate state is published. -/
def dataFetcherTrace (raw : List Cluster) (rs : List GeocodeResult) :
    List (List ClusterWithLocation) :=
  [enrichBatch raw rs]

/-- Server cache time-to-live (part_005 line 5): 7 days in milliseconds. -/
def CACHE_TTL : Nat := 7 * 24 * 60 * 60 * 1000

/-- The per-IP rate-limit window (part_005 line 9): one minute. -/
def RATE_LIMIT_WINDOW : Nat := 60000

/-- The per-IP request budget per window (part_005 line 10). -/
def MAX_REQUESTS_PER_WINDOW : Nat := 50

/-- A server cache entry (part_005 line 4): data plus write timestamp. -/
structure ServerEntry where
  data : GeocodeData
  timestamp : Nat
  deriving DecidableEq

/-- The server geocode cache, keyed by the same quantized-point key as the
client cache (part_005 lines 58 to 61). -/
abbrev ServerCache : Type := List (((Bool × ℕ) × (Bool × ℕ)) × ServerEntry)

/-- Map.get on the server cache. -/
def scGet (m : ServerCache) (k : (Bool × ℕ) × (Bool × ℕ)) : Option ServerEntry :=
  (m.find? (fun e => e.1 = k)).map (fun e => e.2)

/-- Map.set on the server cache. -/
def scPut (m : ServerCache) (k : (Bool × ℕ) × (Bool × ℕ)) (v : ServerEntry) : ServerCache :=
  match m with
  | [] => [(k, v)]
  | (k0, v0) :: t => if k0 = k then (k, v) :: t else (k0, v0) :: scPut t k v

/-- A per-client rate-limit record (part_005 line 8). -/
structure RateRecord where
  count : Nat
  resetTime : Nat
  deriving DecidableEq

/-- The per-client rate-limit table, keyed by client address string. -/
abbrev RateMap : Type := List (String × RateRecord)

/-- Map.get on the rate-limit table. -/
def rmGet (m : RateMap) (k : String) : Option RateRecord :=
  (m.find? (fun e => e.1 = k)).map (fun e => e.2)

/-- Map.set on the rate-limit table. -/
def rmSet (m : RateMap) (k : String) (v : RateRecord) : RateMap :=
  match m with
  | [] => [(k, v)]
  | (k0, v0) :: t => if k0 = k then (k, v) :: t else (k0, v0) :: rmSet t k v

/-- getRateLimitKey (part_005 lines 12 to 18): the x-forwarded-for header,
else the x-real-ip header, else "unknown". -/
def getRateLimitKey (xForwardedFor xRealIp : Option String) : String :=
  ((xForwardedFor <|> xRealIp)).getD "unknown"

/-- checkRateLimit (part_005 lines 20 to 35).  Returns whether the request
is admitted together with the updated table: a missing or expired record
(now strictly past resetTime) is replaced by a fresh window with count 1; a
record at the budget denies the request without mutation; otherwise the
count is incremented. -/
def checkRateLimit (m : RateMap) (key : String) (now : Nat) : Bool × RateMap :=
  match rmGet m key with
  | none => (true, rmSet m key ⟨1, now + RATE_LIMIT_WINDOW⟩)
  | some record =>
    if now > record.resetTime then
      (true, rmSet m key ⟨1, now + RATE_LIMIT_WINDOW⟩)
    else if record.count ≥ MAX_REQUESTS_PER_WINDOW then (false, m)
    else (true, rmSet m key ⟨record.count + 1, record.resetTime⟩)

/-- The observable outcome of one GET /api/geocode request (part_005). -/
structure RouteOut where
  status : Nat
  data : Option GeocodeData
  errorBody : Bool
  cacheRead : Bool
  upstreamCalled : Bool
  rateMap : RateMap
  cache : ServerCache

/-- GET /api/geocode (part_005 lines 37 to 134).  Missing parameters are
rejected with 400 before anything else; the rate limit is checked next, and
a denied request is answered 429 with an error body, reading no cache and
calling no upstream; then the quantized key is looked up in the server
cache, and an entry with age strictly below CACHE_TTL is served directly;
otherwise the upstream Nominatim call runs (oracle `upstream`; `none`
models a failed or malformed upstream response, answered 500), and a
successful result is cached with the current timestamp.  The opportunistic
eviction scan (lines 117 to 124) only deletes entries that the read path
already treats as absent and is not modelled. -/
def geocodeRoute (rm : RateMap) (sc : ServerCache) (clientKey : String)
    (params : Option (ℚ × ℚ)) (now : Nat) (upstream : Option GeocodeData) :
    RouteOut :=
  match params with
  | none => ⟨400, none, true, false, false, rm, sc⟩
  | some (lat, lng) =>
    let checked := checkRateLimit rm clientKey now
    if checked.1 = false then ⟨429, none, true, false, false, checked.2, sc⟩
    else
      let k := (toFixed4 lat, toFixed4 lng)
      match scGet sc k with
      | some cached =>
        if now - cached.timestamp < CACHE_TTL then
          ⟨200, some cached.data, false, true, false, checked.2, sc⟩
        else
          match upstream with
          | some d => ⟨200, some d, false, true, true, checked.2, scPut sc k ⟨d, now⟩⟩
          | none => ⟨500, none, true, true, true, checked.2, sc⟩
      | none =>
        match upstream with
        | some d => ⟨200, some d, false, true, true, checked.2, scPut sc k ⟨d, now⟩⟩
        | none => ⟨500, none, true, true, true, checked.2, sc⟩

/-- The observable outcome of resolving one point end to end. -/
structure EndToEndOut where
  result : Option GeocodeData
  taskSubmitted : Bool
  networkCalled : Bool
  upstreamCalled : Bool

/-- Resolving one point through the whole pipeline: the client cache check
of reverseGeocodeWithCache (part_002), then, on a miss, a task submitted to
the RateLimiter whose network call hits GET /api/geocode (part_005), whose
own cache guards the upstream Nominatim call.  A non-ok response makes the
client return null (absent). -/
def resolvePoint (cc : GeocodeCache) (rm : RateMap) (sc : ServerCache)
    (clientKey : String) (p : Point) (now : Nat)
    (upstream : Option GeocodeData) : EndToEndOut :=
  match cacheGet cc (cacheKey p) with
  | some v => ⟨some v, false, false, false⟩
  | none =>
    let ro := geocodeRoute rm sc clientKey (some (p.lat, p.lng)) now upstream
    if ro.status = 200 then ⟨ro.data, true, true, ro.upstreamCalled⟩
    else ⟨none, true, true, ro.upstreamCalled⟩

/-- The default retry budget of fetchWithRetry (part_004 line 44): the for
loop performs at most this many fetch attempts. -/
def retries : Nat := 3

/-- The outcome of one fetchWithRetry call: the status of the returned
response (`none` models the throw after the loop exhausts), the number of
fetch attempts performed, and every setTimeout delay slept, in order. -/
structure RetryOutcome where
  result : Option Nat
  attempts : Nat
  delays : List Nat
  deriving DecidableEq

/-- The body of the retry loop of fetchWithRetry (part_004 lines 46 to 53),
iterated over the remaining attempt indices.  `statuses i` is the HTTP
status the provider answers to attempt `i`; `jitters i` models the
millisecond value of Math.random() * 1000 drawn before attempt `i + 1`.
Any non-429 response returns immediately; a 429 sleeps
2 ^ i * 1000 + jitter milliseconds and continues (the sleep happens even
when the loop is about to exhaust). -/
def runRetryAux (statuses jitters : Nat → Nat) : List Nat → RetryOutcome
  | [] => ⟨none, 0, []⟩
  | i :: rest =>
    if statuses i ≠ 429 then ⟨some (statuses i), 1, []⟩
    else
      let delay := 2 ^ i * 1000 + jitters i
      let o := runRetryAux statuses jitters rest
      ⟨o.result, o.attempts + 1, delay :: o.delays⟩

/-- fetchWithRetry (part_004 lines 41 to 55): the loop for i in 0..retries-1,
followed by a throw (result `none`) when every attempt was answered 429. -/
def fetchWithRetry (statuses jitters : Nat → Nat) : RetryOutcome :=
  runRetryAux statuses jitters (List.range retries)

/-- The status answered by the part_004 GET handler around fetchWithRetry:
the catch block turns a throw (retry exhaustion, or a returned non-ok
response, which lines 65 to 68 re-throw) into a 500 error response; an ok
response is parsed and answered 200. -/
def geminiRouteStatus (statuses jitters : Nat → Nat) : Nat :=
  match (fetchWithRetry statuses jitters).result with
  | none => 500
  | some s => if 200 ≤ s ∧ s ≤ 299 then 200 else 500

/-- reverseGeocode (src/src/components/utils/api.ts lines 10 to 25): fetch
the geocode endpoint, return the parsed body on an ok response, and catch
any error — a thrown failure degrades to null, never propagating to the
caller. -/
def reverseGeocodeClient (routeStatus : Nat) (body : GeocodeData) :
    Option GeocodeData :=
  if routeStatus = 200 then some body else none

/-- A sequence of geocode requests hitting checkRateLimit in order, each
given by its client key and arrival time.  Returns the admission verdicts in
order together with the final table. -/
def runRequests (m : RateMap) : List (String × Nat) → List Bool × RateMap
  | [] => ([], m)
  | (k, t) :: rest =>
    let checked := checkRateLimit m k t
    let tail := runRequests checked.2 rest
    (checked.1 :: tail.1, tail.2)

section Lemmas

/-- Reading back the key just written to the client cache. -/
theorem cacheGet_cachePut (m : GeocodeCache) (k : (Bool × ℕ) × (Bool × ℕ)) (v : GeocodeData) :
    cacheGet (cachePut m k v) k = some v := by
  induction m with
  | nil => simp [cachePut, cacheGet]
  | cons e t ih =>
    obtain ⟨k0, v0⟩ := e
    by_cases h : k0 = k
    · simp [cachePut, cacheGet, h]
    · simpa [cachePut, cacheGet, h, List.find?] using ih

/-- The first dispatch of the RateLimiter worker loop starts no earlier than
the current clock and no earlier than one full interval past the previous
dispatch. -/
theorem schedule_head_lower (now lastCallTime : Nat) (ds : List Nat)
    (p : Nat × Nat) (hp : (schedule now lastCallTime ds).head? = some p) :
    lastCallTime + minInterval ≤ p.1 ∧ now ≤ p.1 := by
  cases ds with
  | nil => simp [schedule] at hp
  | cons d rest =>
    simp only [schedule, List.head?] at hp
    obtain rfl : (if now < lastCallTime + minInterval then lastCallTime + minInterval else now, d) = p := by
      simpa using hp
    constructor
    · show lastCallTime + minInterval ≤
        (if now < lastCallTime + minInterval then lastCallTime + minInterval else now)
      split <;> omega
    · show now ≤
        (if now < lastCallTime + minInterval then lastCallTime + minInterval else now)
      split <;> omega

/-- Consecutive dispatches of the RateLimiter worker loop are separated by at
least the minimum interval, and each starts only after the previous task
completed. -/
theorem schedule_chain (now lastCallTime : Nat) (ds : List Nat) :
    List.Chain' (fun a b : Nat × Nat => a.1 + minInterval ≤ b.1 ∧ a.1 + a.2 ≤ b.1)
      (schedule now lastCallTime ds) := by
  induction ds generalizing now lastCallTime with
  | nil => simp [schedule]
  | cons d rest ih =>
    rw [schedule, List.chain'_cons']
    refine ⟨?_, ih _ _⟩
    intro y hy
    have h := schedule_head_lower _ _ _ _ hy
    set start := if now < lastCallTime + minInterval then lastCallTime + minInterval else now
    exact ⟨h.1, le_trans (by omega) h.2⟩

/-- The worker loop dispatches exactly the submitted tasks, in order. -/
theorem schedule_fifo (now lastCallTime : Nat) (ds : List Nat) :
    (schedule now lastCallTime ds).map Prod.snd = ds := by
  induction ds generalizing now lastCallTime with
  | nil => rfl
  | cons d rest ih => simp [schedule, ih]

/-- Printing a natural number through ℤ prints the number itself. -/
theorem toString_intCast_natCast (n : Nat) : toString ((n : ℤ)) = toString n := rfl

/-- The code's area naming agrees with the spec's wording of the policy on
every pair of facet lists. -/
theorem areaName_eq_specPolicy (ns cs : List String) :
    computeAreaName ns cs = areaNameSpecPolicy ns cs := by
  rcases ns with _ | ⟨a, ns'⟩
  · rcases cs with _ | ⟨c, cs'⟩ <;> simp [computeAreaName, areaNameSpecPolicy]
  · rcases ns' with _ | ⟨b, t⟩
    · rcases cs with _ | ⟨c, cs'⟩ <;>
        (norm_num [computeAreaName, areaNameSpecPolicy]; try simp)
    · have hcast : ((a :: b :: t).length : ℤ) - 2 = ((t.length : Nat) : ℤ) := by
        simp only [List.length_cons]
        push_cast
        ring
      have hnat : (a :: b :: t).length - 2 = t.length := by
        simp only [List.length_cons]
        omega
      by_cases h2 : 0 < t.length
      · have hpos : ((a :: b :: t).length : ℤ) - 2 > 0 := by rw [hcast]; exact_mod_cast h2
        have hpos2 : (a :: b :: t).length > 2 := by
          simp only [List.length_cons]
          omega
        rcases cs with _ | ⟨c, cs'⟩ <;>
          simp only [computeAreaName, areaNameSpecPolicy, hpos, hpos2, if_pos,
            hcast, hnat, toString_intCast_natCast] <;>
          simp [h2]
      · have hneg : ¬ ((a :: b :: t).length : ℤ) - 2 > 0 := by rw [hcast]; omega
        have hneg2 : ¬ (a :: b :: t).length > 2 := by
          simp only [List.length_cons]
          omega
        rcases cs with _ | ⟨c, cs'⟩ <;>
          simp only [computeAreaName, areaNameSpecPolicy, hneg, hneg2, if_neg] <;>
          simp [h2]

end Lemmas

/-- C5: the area-naming function is deterministic in the facet sets and
follows the stated policy: first two neighborhoods joined by ", ", then
" +k more" when more than two neighborhoods exist, then " (first city)"
when any city is known; else all cities joined by ", "; else
"Unknown Area" — with the three concrete examples of the claim. -/
theorem C5_area_naming :
    (∀ ns cs : List String, computeAreaName ns cs = areaNameSpecPolicy ns cs)
    ∧ computeAreaName ["Downtown", "Midtown", "Uptown"] ["Dallas"]
        = "Downtown, Midtown +1 more (Dallas)"
    ∧ computeAreaName [] ["Dallas", "Plano"] = "Dallas, Plano"
    ∧ computeAreaName [] [] = "Unknown Area" :=
  ⟨areaName_eq_specPolicy, by decide, by decide, by decide⟩

/-- C7: two points whose latitude and longitude each round to the same
4-decimal value share the cache key, so the cache treats them as the same
point: after a put under the first, a get under the second returns the
stored facets. -/
theorem C7_cache_key_equivalence (p1 p2 : Point) (f : GeocodeData)
    (m : GeocodeCache)
    (hlat : toFixed4 p1.lat = toFixed4 p2.lat)
    (hlng : toFixed4 p1.lng = toFixed4 p2.lng) :
    cacheGet (cachePut m (cacheKey p1) f) (cacheKey p2) = some f := by
  have hk : cacheKey p1 = cacheKey p2 := by
    unfold cacheKey
    rw [hlat, hlng]
  rw [hk]
  exact cacheGet_cachePut m (cacheKey p2) f

/-- Witness for C7 at two distinct concrete points: latitudes 1.23455 (a
tie, rounded up) and 1.23456, both rendering "1.2346", with longitudes
-0.00004 and -0.00003, both strictly negative and so both rendering
"-0.0000". -/
theorem C7_witness :
    toFixed4 (Point.mk (mkRat 123455 100000) (mkRat (-4) 100000)).lat
      = toFixed4 (Point.mk (mkRat 123456 100000) (mkRat (-3) 100000)).lat
    ∧ toFixed4 (Point.mk (mkRat 123455 100000) (mkRat (-4) 100000)).lng
      = toFixed4 (Point.mk (mkRat 123456 100000) (mkRat (-3) 100000)).lng
    ∧ cacheGet
        (cachePut [] (cacheKey (Point.mk (mkRat 123455 100000) (mkRat (-4) 100000)))
          (GeocodeData.mk (some "Downtown") (some "Dallas") none none none))
        (cacheKey (Point.mk (mkRat 123456 100000) (mkRat (-3) 100000)))
      = some (GeocodeData.mk (some "Downtown") (some "Dallas") none none none) :=
  ⟨by decide, by decide,
    C7_cache_key_equivalence _ _ _ _ (by decide) (by decide)⟩

/-- C2: the RateLimiter dispatches tasks strictly in submission (FIFO)
order, consecutive dispatch start times are separated by at least the
configured minimum interval of 1100 milliseconds, and each dispatch starts
only after the previous task completed — at most one task executes at a
time. -/
theorem C2_rate_limiter (now lastCallTime : Nat) (ds : List Nat) :
    minInterval = 1100
    ∧ (schedule now lastCallTime ds).map Prod.snd = ds
    ∧ List.Chain' (fun a b : Nat × Nat =>
        a.1 + minInterval ≤ b.1 ∧ a.1 + a.2 ≤ b.1)
        (schedule now lastCallTime ds) :=
  ⟨rfl, schedule_fifo now lastCallTime ds, schedule_chain now lastCallTime ds⟩

/-- The raw cluster of the superseded fetch in the C1 scenario. -/
def c1oldCluster : Cluster :=
  ⟨"Residential Roofing", 7, 5, mkRat 1 1, mkRat 1 1, [], none, none⟩

/-- A raw cluster of the newer fetch that happens to reuse the same
(job_type, cluster_id) key — cluster ids are not stable across fetches. -/
def c1newCluster : Cluster :=
  ⟨"Residential Roofing", 7, 9, mkRat 2 1, mkRat 2 1, [], none, none⟩

/-- A geocode result produced by the superseded fetch. -/
def c1staleResult : GeocodeResult :=
  ⟨7, "Residential Roofing", ⟨some "Downtown", some "Dallas", none, some "Texas", none⟩⟩

/-- C1 counterexample: the geocode completion handlers of part_002 fetchData
carry no generation tag and perform no staleness check.  After a newer fetch
has published its placeholder clusters, a pending geocode result of the
older fetch still overwrites the published entry that shares its
(job_type, cluster_id) key — with the older fetch's cluster data — so the
published state is changed by a superseded fetch. -/
theorem C1_counterexample :
    applyGeocodeUpdate [c1oldCluster] c1staleResult (basicClusters [c1newCluster])
      = [enhanceCluster c1oldCluster c1staleResult.data]
    ∧ applyGeocodeUpdate [c1oldCluster] c1staleResult (basicClusters [c1newCluster])
      ≠ basicClusters [c1newCluster] :=
  ⟨by decide, by decide⟩

/-- C1 amended: a pending geocode update of a superseded fetch is dropped
exactly when the currently published list has no cluster matching its
(job_type, cluster_id); when a matching cluster is published (and the
result's key is in the stale fetch's own cluster map), the stale update is
applied to the published state, overwriting that entry. -/
theorem C1_stale_update_behavior (m : List Cluster) (r : GeocodeResult)
    (prev : List ClusterWithLocation) :
    (prev.findIdx? (fun c =>
        c.job_type == r.jobType && c.cluster_id == r.clusterId) = none →
      applyGeocodeUpdate m r prev = prev)
    ∧ (∀ cluster index,
        m.find? (fun c =>
          c.job_type == r.jobType && c.cluster_id == r.clusterId) = some cluster →
        prev.findIdx? (fun c =>
          c.job_type == r.jobType && c.cluster_id == r.clusterId) = some index →
        applyGeocodeUpdate m r prev
          = prev.set index (enhanceCluster cluster r.data)) := by
  constructor
  · intro h
    unfold applyGeocodeUpdate
    cases hm : m.find? (fun c =>
        c.job_type == r.jobType && c.cluster_id == r.clusterId) with
    | none => rfl
    | some cluster => rw [h]
  · intro cluster index hm hidx
    unfold applyGeocodeUpdate
    rw [hm, hidx]

/-- Witness for C1 at concrete inputs: with an empty published list the
stale update is a no-op, and with the matching placeholder published it
overwrites that entry. -/
theorem C1_witness :
    applyGeocodeUpdate [c1oldCluster] c1staleResult [] = []
    ∧ applyGeocodeUpdate [c1oldCluster] c1staleResult [basicCluster c1oldCluster]
      = [enhanceCluster c1oldCluster c1staleResult.data] := by
  constructor
  · exact (C1_stale_update_behavior [c1oldCluster] c1staleResult []).1 (by decide)
  · have h := (C1_stale_update_behavior [c1oldCluster] c1staleResult
      [basicCluster c1oldCluster]).2 c1oldCluster 0 (by decide) (by decide)
    rw [h]
    decide

/-- A cluster of the C3 batch. -/
def c3clusterA : Cluster :=
  ⟨"Residential Roofing", 1, 5, mkRat 327775 10000, mkRat (-967975) 10000, [], none, none⟩

/-- A second cluster of the C3 batch sharing the same centroid, hence the
same cache key. -/
def c3clusterB : Cluster :=
  ⟨"Commercial Demolition", 2, 3, mkRat 327775 10000, mkRat (-967975) 10000, [], none, none⟩

/-- C3 counterexample: representative points are not deduplicated across the
batch before lookups are issued.  With an empty cache, two clusters sharing
one representative point enqueue two network lookups for that cache key,
not one. -/
theorem C3_counterexample :
    (enqueuedLookups [] [c3clusterA, c3clusterB]).count (centroidKey c3clusterA) = 2 := by
  decide

/-- C3 amended: the only cross-cluster deduplication is the completed-result
cache: a key already cached when the fan-out starts issues no lookup, but a
key not yet cached issues one network lookup per requesting cluster,
duplicates included.  Separately, the RateLimiter dispatches the enqueued
lookups one at a time — each task starts only after the previous one
completed — so two lookups for the same key are never simultaneously in
flight. -/
theorem C3_batch_dedup (cacheKeys : List ((Bool × ℕ) × (Bool × ℕ))) (cs : List Cluster)
    (k : (Bool × ℕ) × (Bool × ℕ)) :
    ((enqueuedLookups cacheKeys cs).count k
      = if k ∈ cacheKeys then 0 else (cs.map centroidKey).count k)
    ∧ ∀ now lastCallTime tasks, List.Chain'
        (fun a b : Nat × Nat => a.1 + a.2 ≤ b.1)
        (schedule now lastCallTime tasks) := by
  constructor
  · induction cs with
    | nil => by_cases hk : k ∈ cacheKeys <;> simp [enqueuedLookups, hk]
    | cons c t ih =>
      by_cases hc : centroidKey c ∈ cacheKeys <;> by_cases hk : k ∈ cacheKeys <;>
        by_cases he : centroidKey c = k <;>
          simp_all [enqueuedLookups, List.filterMap_cons, List.count_cons]
  · intro now lastCallTime tasks
    exact (schedule_chain now lastCallTime tasks).imp (fun a b h => h.2)

/-- A raw cluster of the C4 fetch. -/
def c4cluster1 : Cluster :=
  ⟨"Residential Roofing", 1, 4, mkRat 1 1, mkRat 1 1, [], none, none⟩

/-- A second raw cluster of the C4 fetch. -/
def c4cluster2 : Cluster :=
  ⟨"Commercial Demolition", 2, 6, mkRat 2 1, mkRat 2 1, [], none, none⟩

/-- C4 counterexample: the maps/DataFetcher.tsx enricher publishes no
placeholders at all.  A fetch returning two raw clusters produces exactly
one publication, issued only after every geocoding promise has settled, and
no published cluster ever carries the pending sentinel. -/
theorem C4_counterexample :
    (dataFetcherTrace [c4cluster1, c4cluster2] []).length = 1
    ∧ ((dataFetcherTrace [c4cluster1, c4cluster2] []).all
        (fun published => published.all
          (fun c => c.area_name != some pendingSentinel))) = true :=
  ⟨rfl, by decide⟩

/-- C4 amended: the streaming enricher of part_002 does publish, first and
synchronously, one placeholder per raw cluster — pending sentinel area
name, empty facet lists — before any geocode-driven update is applied; the
batch enricher of maps/DataFetcher.tsx instead performs a single publication
after all lookups settle.  This theorem states the part_002 half: the first
published state of the trace is exactly the placeholder list. -/
theorem C4_placeholder_first (raw : List Cluster) (results : List GeocodeResult) :
    (fetchClusterTrace raw results).head? = some (basicClusters raw)
    ∧ (basicClusters raw).length = raw.length
    ∧ (basicClusters raw).map (fun c => c.area_name)
        = raw.map (fun _ => some pendingSentinel)
    ∧ (basicClusters raw).map
        (fun c => (c.neighborhoods, c.cities, c.counties, c.postal_codes))
        = raw.map (fun _ => ([], [], [], [])) := by
  refine ⟨?_, by simp [basicClusters], ?_, ?_⟩
  · cases results with
    | nil => rfl
    | cons r rest => rfl
  · rw [basicClusters, List.map_map]
    rfl
  · rw [basicClusters, List.map_map]
    rfl

/-- A location coordinate of the C6 cluster. -/
def c6point1 : Point := ⟨mkRat 1 1, mkRat 2 1⟩

/-- A second location coordinate of the C6 cluster. -/
def c6point2 : Point := ⟨mkRat 3 1, mkRat 4 1⟩

/-- A cluster with two location coordinates. -/
def c6cluster : Cluster :=
  ⟨"Residential Roofing", 3, 2, mkRat 5 1, mkRat 6 1, [], none,
    some [c6point1, c6point2]⟩

/-- C6 counterexample: the optimized fetcher of part_002 geocodes only the
centroid of every cluster.  For a cluster whose location_coords holds two
points, it selects a single representative point — the centroid — not
min(10, 2) = 2 points. -/
theorem C6_counterexample :
    c6cluster.location_coords = some [c6point1, c6point2]
    ∧ centroidOnlyPoints c6cluster = [⟨mkRat 5 1, mkRat 6 1⟩]
    ∧ (centroidOnlyPoints c6cluster).length ≠ min 10 [c6point1, c6point2].length :=
  ⟨by decide, by decide, by decide⟩

/-- C6 amended: in maps/DataFetcher.tsx the selected representative points
number min(10, number of location coordinates) when coordinates are present
and non-empty, and are exactly the single centroid otherwise; the optimized
fetcher of part_002 always selects only the centroid. -/
theorem C6_representative_points (c : Cluster) :
    (∀ coords, c.location_coords = some coords → coords.length > 0 →
      (pointsToGeocode c).length = min 10 coords.length)
    ∧ (c.location_coords = none →
      pointsToGeocode c = [⟨c.center_lat, c.center_lng⟩])
    ∧ (∀ coords, c.location_coords = some coords → coords.length = 0 →
      pointsToGeocode c = [⟨c.center_lat, c.center_lng⟩])
    ∧ centroidOnlyPoints c = [⟨c.center_lat, c.center_lng⟩] := by
  refine ⟨?_, ?_, ?_, rfl⟩
  · intro coords hc hlen
    simp only [pointsToGeocode, hc, hlen, if_pos, List.length_take]
    omega
  · intro h
    simp [pointsToGeocode, h]
  · intro coords hc hlen
    simp [pointsToGeocode, hc, hlen]

/-- Witness for C6 at the concrete two-coordinate cluster. -/
theorem C6_witness :
    (pointsToGeocode c6cluster).length = min 10 [c6point1, c6point2].length :=
  (C6_representative_points c6cluster).1 [c6point1, c6point2] (by decide) (by decide)

/-- The quantized point of the C8 scenario. -/
def c8point : Point := ⟨mkRat 327775 10000, mkRat (-967975) 10000⟩

/-- The facets cached for that point. -/
def c8data : GeocodeData :=
  ⟨some "Downtown", some "Dallas", some "Dallas County", some "Texas", some "75201"⟩

/-- C8 counterexample: a point whose quantized key has a one-day-old (hence
unexpired) cached entry — held in the server cache, the only cache with
timestamps — is resolved by submitting a task to the RateLimiter and making
a network call to the geocode endpoint, because the limiter-bypassing
client cache is a separate, timestamp-free map that here misses.  The claim
that such a point is resolved with no task and no network call is false. -/
theorem C8_counterexample :
    (resolvePoint [] [] [(cacheKey c8point, ⟨c8data, 0⟩)] "unknown" c8point
      86400000 none).result = some c8data
    ∧ (resolvePoint [] [] [(cacheKey c8point, ⟨c8data, 0⟩)] "unknown" c8point
      86400000 none).taskSubmitted = true
    ∧ (resolvePoint [] [] [(cacheKey c8point, ⟨c8data, 0⟩)] "unknown" c8point
      86400000 none).networkCalled = true
    ∧ (resolvePoint [] [] [(cacheKey c8point, ⟨c8data, 0⟩)] "unknown" c8point
      86400000 none).upstreamCalled = false :=
  ⟨by decide, by decide, by decide, by decide⟩

/-- C8 amended: a client-cache hit is returned directly — no RateLimiter
task, no network call — but the client cache has no TTL, so age never
expires an entry there.  The 7-day TTL lives in the server endpoint cache:
on a client miss, an admitted request for a key whose server entry has age
strictly below CACHE_TTL is served from that cache with no upstream
Nominatim call (though a task and a network call were spent), and a server
entry at or beyond the TTL is treated as absent on read, so the upstream
call runs. -/
theorem C8_cache_behavior (cc : GeocodeCache) (rm : RateMap) (sc : ServerCache)
    (ck : String) (p : Point) (now : Nat) (upstream : Option GeocodeData) :
    (∀ v, cacheGet cc (cacheKey p) = some v →
      resolvePoint cc rm sc ck p now upstream = ⟨some v, false, false, false⟩)
    ∧ (∀ e, cacheGet cc (cacheKey p) = none →
        (checkRateLimit rm ck now).1 = true →
        scGet sc (cacheKey p) = some e →
        now - e.timestamp < CACHE_TTL →
        resolvePoint cc rm sc ck p now upstream = ⟨some e.data, true, true, false⟩)
    ∧ (∀ e, cacheGet cc (cacheKey p) = none →
        (checkRateLimit rm ck now).1 = true →
        scGet sc (cacheKey p) = some e →
        ¬ now - e.timestamp < CACHE_TTL →
        (resolvePoint cc rm sc ck p now upstream).upstreamCalled = true) := by
  refine ⟨?_, ?_, ?_⟩
  · intro v h
    simp [resolvePoint, h]
  · intro e h1 h2 h3 h4
    have h1x : cacheGet cc (toFixed4 p.lat, toFixed4 p.lng) = none := h1
    have h3x : scGet sc (toFixed4 p.lat, toFixed4 p.lng) = some e := h3
    simp [resolvePoint, geocodeRoute, h1, h1x, h2, h3x, h4]
  · intro e h1 h2 h3 h4
    have h1x : cacheGet cc (toFixed4 p.lat, toFixed4 p.lng) = none := h1
    have h3x : scGet sc (toFixed4 p.lat, toFixed4 p.lng) = some e := h3
    cases upstream with
    | none => simp [resolvePoint, geocodeRoute, h1, h1x, h2, h3x, h4]
    | some d => simp [resolvePoint, geocodeRoute, h1, h1x, h2, h3x, h4]

/-- Witness for C8 at concrete states: a client-cache hit, a fresh
server-cache hit one day old, and a stale server entry read at just past
eight days. -/
theorem C8_witness :
    resolvePoint [(cacheKey c8point, c8data)] [] [] "unknown" c8point 0 none
      = ⟨some c8data, false, false, false⟩
    ∧ resolvePoint [] [] [(cacheKey c8point, ⟨c8data, 0⟩)] "unknown" c8point
        86400000 none
      = ⟨some c8data, true, true, false⟩
    ∧ (resolvePoint [] [] [(cacheKey c8point, ⟨c8data, 0⟩)] "unknown" c8point
        700000000 none).upstreamCalled = true := by
  refine ⟨?_, ?_, ?_⟩
  · exact (C8_cache_behavior [(cacheKey c8point, c8data)] [] [] "unknown"
      c8point 0 none).1 c8data (by decide)
  · exact (C8_cache_behavior [] [] [(cacheKey c8point, ⟨c8data, 0⟩)] "unknown"
      c8point 86400000 none).2.1 ⟨c8data, 0⟩ (by decide) (by decide) (by decide)
      (by decide)
  · exact (C8_cache_behavior [] [] [(cacheKey c8point, ⟨c8data, 0⟩)] "unknown"
      c8point 700000000 none).2.2 ⟨c8data, 0⟩ (by decide) (by decide) (by decide)
      (by decide)

/-- C9: on a 429 the geocoding lookup retries with exponential backoff plus
jitter, up to the budget of retries = 3 fetch attempts in total; it returns
the first non-429 response; the i-th backoff delay is 2 ^ i * 1000
milliseconds plus the drawn jitter, which the jitter bound keeps inside
[2 ^ i seconds, 2 ^ i seconds + 1 second); and exhausting the budget makes
the route answer 500, which the client caller turns into an absent result —
no fault reaches it. -/
theorem C9_retry_backoff (statuses jitters : Nat → Nat)
    (hj0 : jitters 0 < 1000) (hj1 : jitters 1 < 1000) (hj2 : jitters 2 < 1000) :
    (fetchWithRetry statuses jitters).attempts ≤ retries
    ∧ ((fetchWithRetry statuses jitters).result =
        if statuses 0 ≠ 429 then some (statuses 0)
        else if statuses 1 ≠ 429 then some (statuses 1)
        else if statuses 2 ≠ 429 then some (statuses 2)
        else none)
    ∧ ((fetchWithRetry statuses jitters).attempts =
        if statuses 0 ≠ 429 then 1 else if statuses 1 ≠ 429 then 2 else 3)
    ∧ ((fetchWithRetry statuses jitters).delays =
        if statuses 0 ≠ 429 then []
        else if statuses 1 ≠ 429 then [1000 + jitters 0]
        else if statuses 2 ≠ 429 then [1000 + jitters 0, 2000 + jitters 1]
        else [1000 + jitters 0, 2000 + jitters 1, 4000 + jitters 2])
    ∧ (1000 ≤ 1000 + jitters 0 ∧ 1000 + jitters 0 < 2000)
    ∧ (2000 ≤ 2000 + jitters 1 ∧ 2000 + jitters 1 < 3000)
    ∧ (4000 ≤ 4000 + jitters 2 ∧ 4000 + jitters 2 < 5000)
    ∧ ((fetchWithRetry statuses jitters).result = none →
        ∀ body, reverseGeocodeClient (geminiRouteStatus statuses jitters) body
          = none) := by
  have hr : List.range retries = [0, 1, 2] := rfl
  by_cases h0 : statuses 0 = 429 <;> by_cases h1 : statuses 1 = 429 <;>
    by_cases h2 : statuses 2 = 429 <;>
      refine ⟨?_, ?_, ?_, ?_, by omega, by omega, by omega, ?_⟩ <;>
        simp [fetchWithRetry, hr, runRetryAux, h0, h1, h2, retries,
          geminiRouteStatus, reverseGeocodeClient]

/-- Witness for C9: the first attempt is throttled, the second succeeds
with status 200 after a single backoff of 1000 + 500 milliseconds. -/
theorem C9_witness :
    (fetchWithRetry (fun i => if i = 0 then 429 else 200) (fun _ => 500)).result
      = some 200
    ∧ (fetchWithRetry (fun i => if i = 0 then 429 else 200) (fun _ => 500)).attempts
      = 2
    ∧ (fetchWithRetry (fun i => if i = 0 then 429 else 200) (fun _ => 500)).delays
      = [1500] := by
  obtain ⟨-, hres, hatt, hdel, -, -, -, -⟩ :=
    C9_retry_backoff (fun i => if i = 0 then 429 else 200) (fun _ => 500)
      (by decide) (by decide) (by decide)
  exact ⟨by simpa using hres, by simpa using hatt, by simpa using hdel⟩

/-- Reading back the record just written to the rate-limit table. -/
theorem rmGet_rmSet (m : RateMap) (k : String) (v : RateRecord) :
    rmGet (rmSet m k v) k = some v := by
  induction m with
  | nil => simp [rmSet, rmGet]
  | cons e t ih =>
    obtain ⟨k0, v0⟩ := e
    by_cases h : k0 = k
    · simp [rmSet, rmGet, h]
    · simpa [rmSet, rmGet, h, List.find?] using ih

/-- Pointwise-equivalent decidable predicates map to equal verdict lists. -/
theorem map_decide_congr (n : Nat) (f g : Nat → Prop) [DecidablePred f]
    [DecidablePred g] (h : ∀ i, f i ↔ g i) :
    (List.range n).map (fun i => decide (f i))
      = (List.range n).map (fun i => decide (g i)) :=
  List.map_congr_left (fun i _ => decide_eq_decide.mpr (h i))

/-- Unfolding one step of runRequests on its verdict component. -/
theorem runRequests_cons_fst (m : RateMap) (k : String) (t : Nat)
    (rest : List (String × Nat)) :
    (runRequests m ((k, t) :: rest)).1
      = (checkRateLimit m k t).1
          :: (runRequests (checkRateLimit m k t).2 rest).1 := rfl

/-- Within one unexpired window of the fixed-window rate limiter, a key with
current count c is admitted on the next requests exactly while the count
stays below the budget: the i-th further request is admitted iff
c + i < MAX_REQUESTS_PER_WINDOW. -/
theorem runRequests_window (k : String) (rt : Nat) (ts : List Nat)
    (hts : ∀ t ∈ ts, t ≤ rt) :
    ∀ (m : RateMap) (c : Nat), rmGet m k = some ⟨c, rt⟩ → 1 ≤ c →
    (runRequests m (ts.map (fun t => (k, t)))).1
      = (List.range ts.length).map
          (fun i => decide (c + i < MAX_REQUESTS_PER_WINDOW)) := by
  induction ts with
  | nil =>
    intro m c hm hc
    simp [runRequests]
  | cons t rest ih =>
    intro m c hm hc
    have htle : ¬ t > rt := by
      have := hts t (by simp)
      omega
    have hrest : ∀ t2 ∈ rest, t2 ≤ rt := fun t2 ht2 => hts t2 (by simp [ht2])
    rw [List.map_cons, runRequests_cons_fst, List.length_cons,
      List.range_succ_eq_map, List.map_cons, List.map_map]
    by_cases hfull : c ≥ MAX_REQUESTS_PER_WINDOW
    · have hstep : checkRateLimit m k t = (false, m) := by
        simp [checkRateLimit, hm, htle, hfull]
      rw [hstep]
      have htail := ih hrest m c hm hc
      refine congrArg₂ List.cons ?_ ?_
      · have hlt : ¬ (c + 0 < MAX_REQUESTS_PER_WINDOW) := by omega
        simp [hlt]
        omega
      · rw [htail]
        refine List.map_congr_left (fun i _ => ?_)
        simp only [Function.comp_apply]
        rw [decide_eq_decide]
        omega
    · have hstep : checkRateLimit m k t
          = (true, rmSet m k ⟨c + 1, rt⟩) := by
        simp [checkRateLimit, hm, htle, hfull]
      rw [hstep]
      have htail := ih hrest (rmSet m k ⟨c + 1, rt⟩) (c + 1)
        (rmGet_rmSet m k ⟨c + 1, rt⟩) (by omega)
      refine congrArg₂ List.cons ?_ ?_
      · have hlt : c + 0 < MAX_REQUESTS_PER_WINDOW := by omega
        simp [hlt]
        omega
      · rw [htail]
        refine List.map_congr_left (fun i _ => ?_)
        simp only [Function.comp_apply]
        rw [decide_eq_decide]
        omega

/-- C10: the geocode endpoint enforces a per-client fixed-window rate limit.
For a client key with no prior record, a run of requests all arriving
within the window opened by the first one is admitted exactly on its first
MAX_REQUESTS_PER_WINDOW = 50 requests and denied afterwards; a request
arriving strictly after a record's resetTime starts a fresh window with
count 1 and is admitted; a denied request is answered 429 with an error
body, reads no cache and calls no upstream; and the client key is the
x-forwarded-for header, else x-real-ip, else "unknown". -/
theorem C10_rate_limit (k : String) (t0 : Nat) (ts : List Nat)
    (hts : ∀ t ∈ ts, t ≤ t0 + RATE_LIMIT_WINDOW) :
    ((runRequests [] ((t0 :: ts).map (fun t => (k, t)))).1
      = (List.range (ts.length + 1)).map
          (fun i => decide (i < MAX_REQUESTS_PER_WINDOW)))
    ∧ (∀ (m : RateMap) (record : RateRecord) (now : Nat),
        rmGet m k = some record → now > record.resetTime →
        checkRateLimit m k now
          = (true, rmSet m k ⟨1, now + RATE_LIMIT_WINDOW⟩))
    ∧ (∀ (rm : RateMap) (sc : ServerCache) (ll : ℚ × ℚ) (now : Nat)
        (upstream : Option GeocodeData),
        (checkRateLimit rm k now).1 = false →
        (geocodeRoute rm sc k (some ll) now upstream).status = 429
        ∧ (geocodeRoute rm sc k (some ll) now upstream).errorBody = true
        ∧ (geocodeRoute rm sc k (some ll) now upstream).cacheRead = false
        ∧ (geocodeRoute rm sc k (some ll) now upstream).upstreamCalled = false)
    ∧ getRateLimitKey none none = "unknown"
    ∧ (∀ xff xri, getRateLimitKey (some xff) xri = xff)
    ∧ (∀ xri, getRateLimitKey none (some xri) = xri) := by
  refine ⟨?_, ?_, ?_, rfl, fun xff xri => rfl, fun xri => rfl⟩
  · have hfirst : checkRateLimit [] k t0
        = (true, rmSet [] k ⟨1, t0 + RATE_LIMIT_WINDOW⟩) := by
      simp [checkRateLimit, rmGet]
    rw [List.map_cons, runRequests_cons_fst, hfirst]
    have htail := runRequests_window k (t0 + RATE_LIMIT_WINDOW) ts hts
      (rmSet [] k ⟨1, t0 + RATE_LIMIT_WINDOW⟩) 1
      (rmGet_rmSet [] k ⟨1, t0 + RATE_LIMIT_WINDOW⟩) (le_refl 1)
    rw [List.range_succ_eq_map, List.map_cons, List.map_map]
    refine congrArg₂ List.cons ?_ ?_
    · simp [MAX_REQUESTS_PER_WINDOW]
    · rw [htail]
      refine List.map_congr_left (fun i _ => ?_)
      simp only [Function.comp_apply]
      rw [decide_eq_decide]
      omega
  · intro m record now hm hnow
    simp [checkRateLimit, hm, hnow]
  · intro rm sc ll now upstream hdenied
    refine ⟨?_, ?_, ?_, ?_⟩ <;> simp [geocodeRoute, hdenied]

/-- Witness for C10: a single request from a fresh key is admitted; a key
whose window has expired is reset to count 1; a key at the budget inside
its window is denied with a 429 and no cache read or upstream call. -/
theorem C10_witness :
    ((runRequests [] (([0] : List Nat).map (fun t => ("203.0.113.5", t)))).1
      = (List.range 1).map (fun i => decide (i < MAX_REQUESTS_PER_WINDOW)))
    ∧ checkRateLimit [("203.0.113.5", ⟨50, 60000⟩)] "203.0.113.5" 60001
      = (true, [("203.0.113.5", ⟨1, 120001⟩)])
    ∧ (geocodeRoute [("203.0.113.5", ⟨50, 60000⟩)] [] "203.0.113.5"
        (some (mkRat 1 1, mkRat 2 1)) 100 none).status = 429
    ∧ (geocodeRoute [("203.0.113.5", ⟨50, 60000⟩)] [] "203.0.113.5"
        (some (mkRat 1 1, mkRat 2 1)) 100 none).cacheRead = false
    ∧ (geocodeRoute [("203.0.113.5", ⟨50, 60000⟩)] [] "203.0.113.5"
        (some (mkRat 1 1, mkRat 2 1)) 100 none).upstreamCalled = false := by
  obtain ⟨h1, h2, h3, -, -, -⟩ := C10_rate_limit "203.0.113.5" 0 [] (by decide)
  have hreset := h2 [("203.0.113.5", ⟨50, 60000⟩)] ⟨50, 60000⟩ 60001
    (by decide) (by decide)
  have hdeny := h3 [("203.0.113.5", ⟨50, 60000⟩)] [] (mkRat 1 1, mkRat 2 1)
    100 none (by decide)
  refine ⟨h1, ?_, hdeny.1, hdeny.2.2.1, hdeny.2.2.2⟩
  rw [hreset]
  decide

end DumpsterPermit
